import Mathlib

/-!
Shallow embedding of `src/libraries/SPI/src/SPI.cpp` (STM32 Arduino core SPI
wrapper).  The class state is the cached `_spiSettings` plus the HAL handle
state; every member function is a pure function from the state (and an
environment standing for the HAL) to the new state, the list of HAL primitive
calls it performs, and its return value.  Machine integers are `Nat` with
explicit bounds where overflow matters.
-/

namespace STM32SPI

/-- Modelled from the spec: the default SPI clock constant
`SPI_SPEED_CLOCK_DEFAULT` lives in `SPI.h`, which is not under `src/`; the
claims use it only symbolically, a representative value is chosen. -/
def SPI_SPEED_CLOCK_DEFAULT : Nat := 4000000

/-- Modelled from the spec: the fixed transfer timeout constant
`SPI_TRANSFER_TIMEOUT` lives in `SPI.h`, which is not under `src/`; the claims
only need that the same constant is passed on every transfer. -/
def SPI_TRANSFER_TIMEOUT : Nat := 1000

/-- HAL handle reset state written by `begin()`. -/
def HAL_SPI_STATE_RESET : Nat := 0

/-- Modelled from the spec: the `SPISettings` value class from `SPI.h` (not
under `src/`): clock frequency, data mode, bit order, and the skip-receive
flag read by `getSkipRecv()`. -/
structure SPISettings where
  clockFreq : Nat
  dataMode : Nat
  bitOrder : Nat
  skipRecv : Bool
deriving DecidableEq, Repr

/-- Modelled from the spec: `SPISettings` comparison (`operator!=` used by
`beginTransaction`) compares the SPI settings proper, clock speed, data mode
and bit order, per the doc comment of `beginTransaction`. -/
def SPISettings.beqSettings (a b : SPISettings) : Bool :=
  a.clockFreq == b.clockFreq && a.dataMode == b.dataMode && a.bitOrder == b.bitOrder

/-- Modelled from the spec: `SPISettings::setBitOrder`. -/
def SPISettings.setBitOrder (s : SPISettings) (b : Nat) : SPISettings :=
  { s with bitOrder := b }

/-- Modelled from the spec: `SPISettings::setDataMode`. -/
def SPISettings.setDataMode (s : SPISettings) (m : Nat) : SPISettings :=
  { s with dataMode := m }

/-- Modelled from the spec: `SPISettings::setClockFreq`. -/
def SPISettings.setClockFreq (s : SPISettings) (f : Nat) : SPISettings :=
  { s with clockFreq := f }

/-- Modelled from the spec: `DEFAULT_SPI_SETTINGS` (default clock, mode 0,
MSB first, receive not skipped). -/
def DEFAULT_SPI_SETTINGS : SPISettings :=
  { clockFreq := SPI_SPEED_CLOCK_DEFAULT, dataMode := 0, bitOrder := 1, skipRecv := false }

/-- One call into a HAL primitive, as observed at the wrapper boundary.
`spi_transfer` records the buffer contents handed to the HAL, the byte count,
the timeout and the skip-receive flag. -/
inductive HALCall where
  | spi_init (clockFreq dataMode bitOrder : Nat)
  | spi_transfer (buf : List Nat) (count timeout : Nat) (skipRecv : Bool)
  | spi_deinit
  | spi_getClkFreq
deriving DecidableEq, Repr

/-- The mutable fields of `SPIClass` the file touches: the cached
`_spiSettings` and `_spi.handle.State`. -/
structure SPIClassState where
  spiSettings : SPISettings
  handleState : Nat
deriving DecidableEq, Repr

/-- The HAL environment: what the HAL writes back into a transfer buffer, and
the peripheral input clock returned by `spi_getClkFreq`. -/
structure Env where
  transfer : List Nat → List Nat
  clkFreq : Nat

/-- The `spi_init(&_spi, getClockFreq(), getDataMode(), getBitOrder())` call
pattern shared by `begin`, `beginTransaction` and the three setters. -/
def spiInitCall (s : SPISettings) : HALCall :=
  HALCall.spi_init s.clockFreq s.dataMode s.bitOrder

/-- `SPIClass::begin`: reset the handle state, restore default settings,
reinitialize the peripheral. -/
def SPIClass.begin (st : SPIClassState) : SPIClassState × List HALCall :=
  let st1 := { st with handleState := HAL_SPI_STATE_RESET,
                       spiSettings := DEFAULT_SPI_SETTINGS }
  (st1, [spiInitCall st1.spiSettings])

/-- `SPIClass::beginTransaction`: reinitialize only when the requested
settings differ from the cached ones. -/
def SPIClass.beginTransaction (st : SPIClassState) (settings : SPISettings) :
    SPIClassState × List HALCall :=
  if SPISettings.beqSettings st.spiSettings settings then
    (st, [])
  else
    let st1 := { st with spiSettings := settings }
    (st1, [spiInitCall st1.spiSettings])

/-- `SPIClass::endTransaction`: empty body. -/
def SPIClass.endTransaction (st : SPIClassState) : SPIClassState × List HALCall :=
  (st, [])

/-- `SPIClass::end`: deinitialize the peripheral. -/
def SPIClass.end' (st : SPIClassState) : SPIClassState × List HALCall :=
  (st, [HALCall.spi_deinit])

/-- `SPIClass::setBitOrder`: update the cached bit order, then reinitialize
unconditionally. -/
def SPIClass.setBitOrder (st : SPIClassState) (bitOrder : Nat) :
    SPIClassState × List HALCall :=
  let st1 := { st with spiSettings := st.spiSettings.setBitOrder bitOrder }
  (st1, [spiInitCall st1.spiSettings])

/-- `SPIClass::setDataMode(SPIMode)`: update the cached data mode, then
reinitialize unconditionally. -/
def SPIClass.setDataMode (st : SPIClassState) (mode : Nat) :
    SPIClassState × List HALCall :=
  let st1 := { st with spiSettings := st.spiSettings.setDataMode mode }
  (st1, [spiInitCall st1.spiSettings])

/-- `SPIClass::setDataMode(uint8_t)`: casts and delegates to the `SPIMode`
overload. -/
def SPIClass.setDataModeU8 (st : SPIClassState) (mode : Nat) :
    SPIClassState × List HALCall :=
  SPIClass.setDataMode st mode

/-- `SPIClass::setClockDivider`: divider 0 selects the default clock,
otherwise the peripheral clock is divided by the divider (C unsigned
division); then reinitialize unconditionally. -/
def SPIClass.setClockDivider (env : Env) (st : SPIClassState) (divider : Nat) :
    SPIClassState × List HALCall :=
  if divider == 0 then
    let st1 := { st with spiSettings := st.spiSettings.setClockFreq SPI_SPEED_CLOCK_DEFAULT }
    (st1, [spiInitCall st1.spiSettings])
  else
    let st1 := { st with spiSettings := st.spiSettings.setClockFreq (env.clkFreq / divider) }
    (st1, [HALCall.spi_getClkFreq, spiInitCall st1.spiSettings])

/-- `SPIClass::transfer(uint8_t)`: hand a one-byte buffer to `spi_transfer`
and return the byte the HAL left in it. -/
def SPIClass.transfer8 (env : Env) (st : SPIClassState) (data : Nat) :
    SPIClassState × List HALCall × Nat :=
  let buf := [data]
  let buf1 := env.transfer buf
  (st, [HALCall.spi_transfer buf 1 SPI_TRANSFER_TIMEOUT st.spiSettings.skipRecv],
   buf1.headD data)

/-- The byte swap `((data & 0xff00) >> 8) | ((data & 0xff) << 8)` from
`SPIClass::transfer16`, written with the source's bitwise operators. -/
def swap16 (data : Nat) : Nat :=
  ((data &&& 0xff00) >>> 8) ||| ((data &&& 0xff) <<< 8)

/-- Little-endian layout of a 16-bit word in the two-byte transfer buffer. -/
def toBytes16 (w : Nat) : List Nat := [w % 256, w / 256 % 256]

/-- The 16-bit word held by a two-byte buffer (bytes taken mod 256, as the
memory cells are bytes). -/
def fromBytes16 (l : List Nat) : Nat :=
  l.headD 0 % 256 + 256 * (l.getD 1 0 % 256)

/-- `SPIClass::transfer16`: swap the bytes when the cached bit order is
nonzero, hand the two-byte buffer to `spi_transfer`, swap the received word
back under the same condition. -/
def SPIClass.transfer16 (env : Env) (st : SPIClassState) (data : Nat) :
    SPIClassState × List HALCall × Nat :=
  let d1 := if st.spiSettings.bitOrder ≠ 0 then swap16 data else data
  let buf := toBytes16 d1
  let buf1 := env.transfer buf
  let d2 := fromBytes16 buf1
  let d3 := if st.spiSettings.bitOrder ≠ 0 then swap16 d2 else d2
  (st, [HALCall.spi_transfer buf 2 SPI_TRANSFER_TIMEOUT st.spiSettings.skipRecv], d3)

/-- `SPIClass::transfer(void *, size_t)`: a `none` buffer stands for `NULL`;
the HAL is invoked only when the count is nonzero and the buffer non-null,
and the received bytes replace the buffer contents. -/
def SPIClass.transferBuf (env : Env) (st : SPIClassState)
    (buf : Option (List Nat)) (count : Nat) :
    SPIClassState × List HALCall × Option (List Nat) :=
  match buf with
  | none => (st, [], none)
  | some b =>
    if count ≠ 0 then
      (st, [HALCall.spi_transfer b count SPI_TRANSFER_TIMEOUT st.spiSettings.skipRecv],
       some (env.transfer b))
    else
      (st, [], some b)

/-- `SPIClass::usingInterrupt`: unimplemented stub. -/
def SPIClass.usingInterrupt (st : SPIClassState) (interruptNumber : Int) :
    SPIClassState × List HALCall :=
  let _ := interruptNumber
  (st, [])

/-- `SPIClass::notUsingInterrupt`: unimplemented stub. -/
def SPIClass.notUsingInterrupt (st : SPIClassState) (interruptNumber : Int) :
    SPIClassState × List HALCall :=
  let _ := interruptNumber
  (st, [])

/-- `SPIClass::attachInterrupt`: unimplemented stub. -/
def SPIClass.attachInterrupt (st : SPIClassState) : SPIClassState × List HALCall :=
  (st, [])

/-- `SPIClass::detachInterrupt`: unimplemented stub. -/
def SPIClass.detachInterrupt (st : SPIClassState) : SPIClassState × List HALCall :=
  (st, [])

/-- One invocation of a public member function, for quantifying over the whole
public API at once. -/
inductive Op where
  | opBegin
  | opBeginTransaction (settings : SPISettings)
  | opEndTransaction
  | opEnd
  | opSetBitOrder (b : Nat)
  | opSetDataModeU8 (m : Nat)
  | opSetDataMode (m : Nat)
  | opSetClockDivider (d : Nat)
  | opTransfer8 (data : Nat)
  | opTransfer16 (data : Nat)
  | opTransferBuf (buf : Option (List Nat)) (count : Nat)
  | opUsingInterrupt (n : Int)
  | opNotUsingInterrupt (n : Int)
  | opAttachInterrupt
  | opDetachInterrupt

/-- Dispatch one public operation, forgetting its return value. -/
def step (env : Env) (st : SPIClassState) : Op → SPIClassState × List HALCall
  | .opBegin => SPIClass.begin st
  | .opBeginTransaction s => SPIClass.beginTransaction st s
  | .opEndTransaction => SPIClass.endTransaction st
  | .opEnd => SPIClass.end' st
  | .opSetBitOrder b => SPIClass.setBitOrder st b
  | .opSetDataModeU8 m => SPIClass.setDataModeU8 st m
  | .opSetDataMode m => SPIClass.setDataMode st m
  | .opSetClockDivider d => SPIClass.setClockDivider env st d
  | .opTransfer8 d => ((SPIClass.transfer8 env st d).1, (SPIClass.transfer8 env st d).2.1)
  | .opTransfer16 d => ((SPIClass.transfer16 env st d).1, (SPIClass.transfer16 env st d).2.1)
  | .opTransferBuf b c => ((SPIClass.transferBuf env st b c).1, (SPIClass.transferBuf env st b c).2.1)
  | .opUsingInterrupt n => SPIClass.usingInterrupt st n
  | .opNotUsingInterrupt n => SPIClass.notUsingInterrupt st n
  | .opAttachInterrupt => SPIClass.attachInterrupt st
  | .opDetachInterrupt => SPIClass.detachInterrupt st

/-- A concrete HAL environment for witnesses: the HAL echoes the buffer back
and reports a 1 MHz peripheral clock. -/
def env0 : Env := { transfer := fun l => l, clkFreq := 1000000 }

/-- A concrete state for witnesses: the default settings. -/
def st0 : SPIClassState := { spiSettings := DEFAULT_SPI_SETTINGS, handleState := 1 }

/-- A settings value differing from the default, for witnesses. -/
def sAlt : SPISettings :=
  { clockFreq := 2000000, dataMode := 3, bitOrder := 0, skipRecv := false }

/-- Shifting right distributes over bitwise and. -/
theorem and_shiftRight_distrib (a b n : Nat) :
    (a &&& b) >>> n = (a >>> n) &&& (b >>> n) := by
  apply Nat.eq_of_testBit_eq
  intro i
  simp

/-- On 16-bit values the byte swap is the arithmetic exchange of the two
bytes. -/
theorem swap16_eq (d : Nat) (h : d < 65536) :
    swap16 d = d % 256 * 256 + d / 256 := by
  have h28 : (2 : Nat) ^ 8 = 256 := by norm_num
  have e1 : (d &&& 0xff00) >>> 8 = d / 256 := by
    rw [and_shiftRight_distrib]
    have hc : (0xff00 : Nat) >>> 8 = 2 ^ 8 - 1 := by decide
    rw [hc, Nat.and_pow_two_sub_one_eq_mod, Nat.shiftRight_eq_div_pow, h28]
    omega
  have e2 : (d &&& 0xff) <<< 8 = d % 256 * 256 := by
    have hc : (0xff : Nat) = 2 ^ 8 - 1 := by decide
    rw [hc, Nat.and_pow_two_sub_one_eq_mod, Nat.shiftLeft_eq, h28]
  have e3 : 256 * (d % 256) + d / 256 = 256 * (d % 256) ||| d / 256 := by
    rw [← h28]
    exact Nat.mul_add_lt_is_or (by rw [h28]; omega) (d % 256)
  unfold swap16
  rw [e1, e2, Nat.or_comm, Nat.mul_comm (d % 256) 256, e3]

/-- The byte swap is an involution on 16-bit values. -/
theorem swap16_swap16 (d : Nat) (h : d < 65536) : swap16 (swap16 d) = d := by
  have h2 : d % 256 * 256 + d / 256 < 65536 := by omega
  rw [swap16_eq d h, swap16_eq _ h2]
  omega

/-- Claim C3: the 16-bit byte swap of `transfer16` is an involution, and
`transfer16` applies it symmetrically: with nonzero cached bit order the
buffer handed to `spi_transfer` holds the byte-swapped input and the returned
word is the byte-swapped HAL result, so the byte order round-trips; with zero
bit order neither swap is applied. -/
theorem c3_transfer16_swap_roundtrip (env : Env) (st : SPIClassState) (d : Nat)
    (h : d < 65536) :
    swap16 (swap16 d) = d ∧
    (st.spiSettings.bitOrder ≠ 0 →
      (SPIClass.transfer16 env st d).2.1 =
        [HALCall.spi_transfer (toBytes16 (swap16 d)) 2 SPI_TRANSFER_TIMEOUT
          st.spiSettings.skipRecv] ∧
      (SPIClass.transfer16 env st d).2.2 =
        swap16 (fromBytes16 (env.transfer (toBytes16 (swap16 d))))) ∧
    (st.spiSettings.bitOrder = 0 →
      (SPIClass.transfer16 env st d).2.1 =
        [HALCall.spi_transfer (toBytes16 d) 2 SPI_TRANSFER_TIMEOUT
          st.spiSettings.skipRecv] ∧
      (SPIClass.transfer16 env st d).2.2 =
        fromBytes16 (env.transfer (toBytes16 d))) := by
  refine ⟨swap16_swap16 d h, ?_, ?_⟩
  · intro hbo
    constructor
    · simp [SPIClass.transfer16, hbo]
    · simp [SPIClass.transfer16, hbo]
  · intro hbo
    constructor
    · simp [SPIClass.transfer16, hbo]
    · simp [SPIClass.transfer16, hbo]

/-- Witness for C3 at the word 0x1234 with the default (MSB-first) settings
and the echoing HAL environment. -/
theorem c3_transfer16_swap_roundtrip_witness :
    swap16 (swap16 4660) = 4660 ∧
    (SPIClass.transfer16 env0 st0 4660).2.1 =
      [HALCall.spi_transfer (toBytes16 (swap16 4660)) 2 SPI_TRANSFER_TIMEOUT
        st0.spiSettings.skipRecv] ∧
    (SPIClass.transfer16 env0 st0 4660).2.2 =
      swap16 (fromBytes16 (env0.transfer (toBytes16 (swap16 4660)))) := by
  have h := c3_transfer16_swap_roundtrip env0 st0 4660 (by decide)
  exact ⟨h.1, (h.2.1 (by decide)).1, (h.2.1 (by decide)).2⟩

/-- Claim C1 counterexample: `setBitOrder` reinitializes even when the
requested settings equal the cached ones.  From the default state (bit order
already 1), requesting bit order 1 leaves the settings equal to the cached
settings, yet `spi_init` is still invoked. -/
theorem c1_counterexample :
    SPISettings.setBitOrder st0.spiSettings 1 = st0.spiSettings ∧
    SPISettings.beqSettings st0.spiSettings
      (SPISettings.setBitOrder st0.spiSettings 1) = true ∧
    (SPIClass.setBitOrder st0 1).2 =
      [HALCall.spi_init SPI_SPEED_CLOCK_DEFAULT 0 1] := by
  decide

/-- Claim C1 (amended): only `beginTransaction` guards on a settings change,
invoking `spi_init` exactly when the requested settings differ from the
cached ones; `setBitOrder`, `setDataMode` and `setClockDivider` invoke
`spi_init` unconditionally, even when the resulting settings equal the
cached settings. -/
theorem c1_amended_reinit_conditions (env : Env) (st : SPIClassState)
    (s : SPISettings) (bo m dv : Nat) :
    ((∃ c dm b, HALCall.spi_init c dm b ∈ (SPIClass.beginTransaction st s).2) ↔
      SPISettings.beqSettings st.spiSettings s = false) ∧
    (∃ c dm b, HALCall.spi_init c dm b ∈ (SPIClass.setBitOrder st bo).2) ∧
    (∃ c dm b, HALCall.spi_init c dm b ∈ (SPIClass.setDataMode st m).2) ∧
    (∃ c dm b, HALCall.spi_init c dm b ∈ (SPIClass.setClockDivider env st dv).2) := by
  refine ⟨?_, ?_, ?_, ?_⟩
  · by_cases hb : SPISettings.beqSettings st.spiSettings s = true
    · simp [SPIClass.beginTransaction, hb]
    · simp [SPIClass.beginTransaction, hb, spiInitCall, Bool.not_eq_true] at *
  · exact ⟨(st.spiSettings.setBitOrder bo).clockFreq,
      (st.spiSettings.setBitOrder bo).dataMode,
      (st.spiSettings.setBitOrder bo).bitOrder,
      by simp [SPIClass.setBitOrder, spiInitCall]⟩
  · exact ⟨(st.spiSettings.setDataMode m).clockFreq,
      (st.spiSettings.setDataMode m).dataMode,
      (st.spiSettings.setDataMode m).bitOrder,
      by simp [SPIClass.setDataMode, spiInitCall]⟩
  · by_cases hd : dv = 0
    · exact ⟨SPI_SPEED_CLOCK_DEFAULT, st.spiSettings.dataMode, st.spiSettings.bitOrder,
        by simp [SPIClass.setClockDivider, hd, spiInitCall, SPISettings.setClockFreq]⟩
    · exact ⟨env.clkFreq / dv, st.spiSettings.dataMode, st.spiSettings.bitOrder,
        by simp [SPIClass.setClockDivider, hd, spiInitCall, SPISettings.setClockFreq]⟩

/-- Claim C2: `beginTransaction` with settings differing from the cache
updates the cache and calls `spi_init` with the new clock frequency, data
mode and bit order; with settings equal to the cache it leaves the object
unchanged and makes no HAL call. -/
theorem c2_beginTransaction_behavior (st : SPIClassState) (s : SPISettings) :
    (SPISettings.beqSettings st.spiSettings s = false →
      (SPIClass.beginTransaction st s).1.spiSettings = s ∧
      (SPIClass.beginTransaction st s).2 =
        [HALCall.spi_init s.clockFreq s.dataMode s.bitOrder]) ∧
    (SPISettings.beqSettings st.spiSettings s = true →
      (SPIClass.beginTransaction st s).1 = st ∧
      (SPIClass.beginTransaction st s).2 = []) := by
  constructor
  · intro hne
    constructor
    · simp [SPIClass.beginTransaction, hne]
    · simp [SPIClass.beginTransaction, hne, spiInitCall]
  · intro heq
    constructor
    · simp [SPIClass.beginTransaction, heq]
    · simp [SPIClass.beginTransaction, heq]

/-- Witness for C2: one changed-settings call and one equal-settings call
from the default state. -/
theorem c2_beginTransaction_behavior_witness :
    ((SPIClass.beginTransaction st0 sAlt).1.spiSettings = sAlt ∧
     (SPIClass.beginTransaction st0 sAlt).2 =
       [HALCall.spi_init sAlt.clockFreq sAlt.dataMode sAlt.bitOrder]) ∧
    ((SPIClass.beginTransaction st0 st0.spiSettings).1 = st0 ∧
     (SPIClass.beginTransaction st0 st0.spiSettings).2 = []) :=
  ⟨(c2_beginTransaction_behavior st0 sAlt).1 (by decide),
   (c2_beginTransaction_behavior st0 st0.spiSettings).2 (by decide)⟩

/-- Claim C4: `setClockDivider 0` caches the default clock frequency; for a
divider between 1 and 255 it caches `spi_getClkFreq` divided by the divider
(exact unsigned integer division); in both cases the last HAL call is
`spi_init` with the updated cached settings. -/
theorem c4_setClockDivider_freq (env : Env) (st : SPIClassState) (dv : Nat)
    (hdv : dv ≤ 255) :
    (dv = 0 →
      (SPIClass.setClockDivider env st dv).1.spiSettings.clockFreq =
        SPI_SPEED_CLOCK_DEFAULT) ∧
    (1 ≤ dv →
      (SPIClass.setClockDivider env st dv).1.spiSettings.clockFreq =
        env.clkFreq / dv) ∧
    (SPIClass.setClockDivider env st dv).2.getLast? =
      some (spiInitCall (SPIClass.setClockDivider env st dv).1.spiSettings) := by
  by_cases hd : dv = 0
  · subst hd
    exact ⟨fun _ => rfl, fun h1 => absurd h1 (by omega), rfl⟩
  · refine ⟨fun h0 => absurd h0 hd, fun _ => ?_, ?_⟩
    · simp [SPIClass.setClockDivider, hd, SPISettings.setClockFreq]
    · simp [SPIClass.setClockDivider, hd]

/-- Witness for C4 at dividers 0 and 4 with a 1 MHz peripheral clock. -/
theorem c4_setClockDivider_freq_witness :
    (SPIClass.setClockDivider env0 st0 0).1.spiSettings.clockFreq =
      SPI_SPEED_CLOCK_DEFAULT ∧
    (SPIClass.setClockDivider env0 st0 4).1.spiSettings.clockFreq =
      env0.clkFreq / 4 :=
  ⟨(c4_setClockDivider_freq env0 st0 0 (by decide)).1 rfl,
   (c4_setClockDivider_freq env0 st0 4 (by decide)).2.1 (by decide)⟩

/-- Claim C5: every transfer operation forwards to the single HAL primitive
`spi_transfer` with the fixed timeout `SPI_TRANSFER_TIMEOUT` and the cached
skip-receive flag; `transfer(uint8_t)` passes a one-byte buffer and returns
the byte the HAL wrote into it. -/
theorem c5_transfers_forward_to_hal (env : Env) (st : SPIClassState) (d w : Nat)
    (buf : List Nat) (count : Nat) (hc : count ≠ 0) :
    (SPIClass.transfer8 env st d).2.1 =
      [HALCall.spi_transfer [d] 1 SPI_TRANSFER_TIMEOUT st.spiSettings.skipRecv] ∧
    (SPIClass.transfer8 env st d).2.2 = (env.transfer [d]).headD d ∧
    (SPIClass.transfer8 env st d).1 = st ∧
    (∃ b, (SPIClass.transfer16 env st w).2.1 =
      [HALCall.spi_transfer b 2 SPI_TRANSFER_TIMEOUT st.spiSettings.skipRecv]) ∧
    (SPIClass.transferBuf env st (some buf) count).2.1 =
      [HALCall.spi_transfer buf count SPI_TRANSFER_TIMEOUT st.spiSettings.skipRecv] := by
  refine ⟨rfl, rfl, rfl,
    ⟨toBytes16 (if st.spiSettings.bitOrder ≠ 0 then swap16 w else w), rfl⟩, ?_⟩
  simp [SPIClass.transferBuf, hc]

/-- Witness for C5: a byte, a word and a two-byte buffer through the echoing
HAL environment. -/
theorem c5_transfers_forward_to_hal_witness :
    (SPIClass.transfer8 env0 st0 7).2.1 =
      [HALCall.spi_transfer [7] 1 SPI_TRANSFER_TIMEOUT st0.spiSettings.skipRecv] ∧
    (SPIClass.transferBuf env0 st0 (some [1, 2]) 2).2.1 =
      [HALCall.spi_transfer [1, 2] 2 SPI_TRANSFER_TIMEOUT st0.spiSettings.skipRecv] := by
  have h := c5_transfers_forward_to_hal env0 st0 7 0 [1, 2] 2 (by decide)
  exact ⟨h.1, h.2.2.2.2⟩

/-- Claim C6: the buffer transfer invokes `spi_transfer` exactly when the
count is nonzero and the buffer non-null; otherwise it returns with no HAL
call and no state change. -/
theorem c6_transferBuf_guard (env : Env) (st : SPIClassState)
    (buf : Option (List Nat)) (count : Nat) :
    ((SPIClass.transferBuf env st buf count).2.1 ≠ [] ↔
      (count ≠ 0 ∧ buf ≠ none)) ∧
    (SPIClass.transferBuf env st buf count).1 = st ∧
    (count = 0 ∨ buf = none →
      (SPIClass.transferBuf env st buf count).2.1 = [] ∧
      (SPIClass.transferBuf env st buf count).2.2 = buf) := by
  rcases buf with _ | b
  · simp [SPIClass.transferBuf]
  · by_cases hc : count = 0
    · simp [SPIClass.transferBuf, hc]
    · simp [SPIClass.transferBuf, hc]

/-- Witness for C6: a zero count with a non-null buffer produces no HAL call
and leaves the buffer as passed. -/
theorem c6_transferBuf_guard_witness :
    (SPIClass.transferBuf env0 st0 (some [5]) 0).2.1 = [] ∧
    (SPIClass.transferBuf env0 st0 (some [5]) 0).2.2 = some [5] :=
  (c6_transferBuf_guard env0 st0 (some [5]) 0).2.2 (Or.inl rfl)

/-- Claim C7: the four interrupt hooks are stubs: for every argument and
state they return with the state unchanged and an empty HAL call trace. -/
theorem c7_interrupt_hooks_are_stubs (st : SPIClassState) (n : Int) :
    SPIClass.usingInterrupt st n = (st, []) ∧
    SPIClass.notUsingInterrupt st n = (st, []) ∧
    SPIClass.attachInterrupt st = (st, []) ∧
    SPIClass.detachInterrupt st = (st, []) :=
  ⟨rfl, rfl, rfl, rfl⟩

/-- Claim C9: `endTransaction` is a pure no-op: the state is returned
unchanged and no HAL primitive is invoked. -/
theorem c9_endTransaction_noop (st : SPIClassState) :
    SPIClass.endTransaction st = (st, []) :=
  rfl

/-- Claim C10: the `uint8_t` overload of `setDataMode` is observationally
equivalent to the `SPIMode` overload: same resulting state and same HAL call
trace for every mode value. -/
theorem c10_setDataMode_overloads_agree (st : SPIClassState) (mode : Nat) :
    SPIClass.setDataModeU8 st mode = SPIClass.setDataMode st mode :=
  rfl

/-- Claim C8: every `spi_init` call emitted by any public operation carries
exactly the clock frequency, data mode and bit order of the settings cached
after that operation, so the HAL configuration reflects the cached
settings whenever a reinitialization happens. -/
theorem c8_init_carries_cached_settings (env : Env) (st : SPIClassState)
    (op : Op) (c dm b : Nat)
    (hmem : HALCall.spi_init c dm b ∈ (step env st op).2) :
    c = (step env st op).1.spiSettings.clockFreq ∧
    dm = (step env st op).1.spiSettings.dataMode ∧
    b = (step env st op).1.spiSettings.bitOrder := by
  cases op with
  | opBegin =>
    simp [step, SPIClass.begin, spiInitCall, DEFAULT_SPI_SETTINGS] at hmem ⊢
    exact hmem
  | opBeginTransaction s =>
    by_cases hb : SPISettings.beqSettings st.spiSettings s = true
    · simp [step, SPIClass.beginTransaction, hb] at hmem
    · simp [step, SPIClass.beginTransaction, hb, spiInitCall] at hmem ⊢
      exact hmem
  | opEndTransaction =>
    simp [step, SPIClass.endTransaction] at hmem
  | opEnd =>
    simp [step, SPIClass.end'] at hmem
  | opSetBitOrder bo =>
    simp [step, SPIClass.setBitOrder, spiInitCall] at hmem ⊢
    exact hmem
  | opSetDataModeU8 m =>
    simp [step, SPIClass.setDataModeU8, SPIClass.setDataMode, spiInitCall] at hmem ⊢
    exact hmem
  | opSetDataMode m =>
    simp [step, SPIClass.setDataMode, spiInitCall] at hmem ⊢
    exact hmem
  | opSetClockDivider dv =>
    by_cases hd : dv = 0
    · simp [step, SPIClass.setClockDivider, hd, spiInitCall] at hmem ⊢
      exact hmem
    · simp [step, SPIClass.setClockDivider, hd, spiInitCall] at hmem ⊢
      exact hmem
  | opTransfer8 d =>
    simp [step, SPIClass.transfer8] at hmem
  | opTransfer16 d =>
    simp [step, SPIClass.transfer16] at hmem
  | opTransferBuf bf cnt =>
    rcases bf with _ | bl
    · simp [step, SPIClass.transferBuf] at hmem
    · by_cases hc : cnt = 0
      · simp [step, SPIClass.transferBuf, hc] at hmem
      · simp [step, SPIClass.transferBuf, hc] at hmem
  | opUsingInterrupt n =>
    simp [step, SPIClass.usingInterrupt] at hmem
  | opNotUsingInterrupt n =>
    simp [step, SPIClass.notUsingInterrupt] at hmem
  | opAttachInterrupt =>
    simp [step, SPIClass.attachInterrupt] at hmem
  | opDetachInterrupt =>
    simp [step, SPIClass.detachInterrupt] at hmem

/-- Witness for C8: the `spi_init` call of `begin` carries the default
cached settings. -/
theorem c8_init_carries_cached_settings_witness :
    4000000 = (step env0 st0 Op.opBegin).1.spiSettings.clockFreq ∧
    0 = (step env0 st0 Op.opBegin).1.spiSettings.dataMode ∧
    1 = (step env0 st0 Op.opBegin).1.spiSettings.bitOrder :=
  c8_init_carries_cached_settings env0 st0 Op.opBegin 4000000 0 1 (by decide)

end STM32SPI
